import Mathlib

/-!
# PiGuard GSM engine — verification of the modem-command core

Shallow embedding of the GSM engine of the PiGuard repository:

* `src/GSMModule.ts` — response correlator (`handleResponse`), SMS fan-out
  (`sendToAll`), diagnostics snapshot (`getDiagnostics`);
* `src/ATCommandQueue.ts` — FIFO command queue with head-reinsertion retry
  (`processNext`) and teardown (`clear`);
* `src/utils/gsmDiagnosticsUtils.ts` — regex-based diagnostics parsers and
  human-readable description tables.

JavaScript strings are modelled by Lean `String`, JS numbers arising from
`parseInt` on `\d+` captures by `Nat`, signed dBm arithmetic by `Int`.
`undefined`/absent values are modelled by `Option`.
-/

/-! ## JavaScript string primitives -/

/-- Does `pre` start the list `l`? -/
def charsPrefixOf : List Char → List Char → Bool
  | [], _ => true
  | _ :: _, [] => false
  | a :: as, b :: bs => a = b && charsPrefixOf as bs

/-- Does `sub` occur contiguously somewhere in `l`? -/
def charsInfixOf (sub l : List Char) : Bool :=
  match l with
  | [] => charsPrefixOf sub []
  | _ :: t => charsPrefixOf sub l || charsInfixOf sub t

/-- JS `a.includes(b)`: `b` occurs as a contiguous substring of `a`. -/
def jsIncludes (s sub : String) : Bool :=
  charsInfixOf sub.data s.data

/-- ASCII whitespace stripped by JS `String.prototype.trim` (the modem link
is 7-bit ASCII, so the Unicode additions of the JS WhiteSpace/LineTerminator
classes never occur). -/
def jsTrimWs (c : Char) : Bool :=
  c = ' ' || c = '\t' || c = '\n' || c = '\r' || c = '\x0b' || c = '\x0c'

/-- JS `String.prototype.trim`: strip leading and trailing whitespace. -/
def jsTrim (s : String) : String :=
  String.mk (((s.data.dropWhile jsTrimWs).reverse.dropWhile jsTrimWs).reverse)

/-- The character class `\s` of a JS regex, restricted to ASCII (the modem
link is 7-bit ASCII; Unicode spaces never occur in responses). -/
def jsIsSpace (c : Char) : Bool :=
  c = ' ' || c = '\t' || c = '\n' || c = '\r' || c = '\x0b' || c = '\x0c'

/-- The character class `.` of a JS regex: anything except a line
terminator. -/
def jsIsDot (c : Char) : Bool :=
  !(c = '\n' || c = '\r')

/-- Value of a `\d+` capture under JS `parseInt(·, 10)`. -/
def digitsToNat (ds : List Char) : Nat :=
  ds.foldl (fun a c => 10 * a + (c.toNat - '0'.toNat)) 0

/-- Match a literal regex fragment case-insensitively (`/i` flag) at the
current position, returning the rest of the input on success. -/
def matchLitCI : List Char → List Char → Option (List Char)
  | [], rest => some rest
  | _ :: _, [] => none
  | p :: ps, r :: rs => if r.toLower = p.toLower then matchLitCI ps rs else none

/-- Leftmost-match search: JS `String.prototype.match` tries the pattern at
every position from the left and returns the first success. -/
def scanLeftmost {α : Type} (f : List Char → Option α) : List Char → Option α
  | [] => f []
  | c :: t =>
    match f (c :: t) with
    | some v => some v
    | none => scanLeftmost f t

/-! ## Diagnostics description tables (`gsmDiagnosticsUtils.ts`) -/

/-- `getPinStatusDescription`: map of known `+CPIN` codes; unknown codes
pass through verbatim (the `|| pinStatus` fallback). -/
def getPinStatusDescription (pinStatus : String) : String :=
  if pinStatus = "READY" then "SIM card ready"
  else if pinStatus = "SIM PIN" then "SIM PIN required"
  else if pinStatus = "SIM PUK" then "SIM PUK required (PIN locked)"
  else if pinStatus = "SIM PIN2" then "SIM PIN2 required"
  else if pinStatus = "SIM PUK2" then "SIM PUK2 required"
  else if pinStatus = "PH_SIM_PIN" then "Phone-to-SIM card password required"
  else if pinStatus = "PH_SIM_PUK" then
    "Phone-to-SIM card unblocking password required"
  else if pinStatus = "SIM_PIN" then "SIM PIN required"
  else if pinStatus = "SIM_PUK" then "SIM PUK required"
  else pinStatus

/-- `getMessageFormatDescription`. -/
def getMessageFormatDescription (mode : Nat) : String :=
  if mode = 0 then "PDU mode"
  else if mode = 1 then "Text mode"
  else "Unknown mode (" ++ toString mode ++ ")"

/-- `getNetworkRegistrationModeDescription`: notification mode `n` of
`+CREG`, with the `|| Unknown mode (n)` fallback. -/
def getNetworkRegistrationModeDescription (n : Nat) : String :=
  if n = 0 then "Notifications disabled"
  else if n = 1 then "Notifications enabled"
  else if n = 2 then "Notifications with location info enabled"
  else "Unknown mode (" ++ toString n ++ ")"

/-- `getNetworkStatusDescription`: registration status `stat` of `+CREG`,
with the `|| Unknown status (stat)` fallback. -/
def getNetworkStatusDescription (stat : Nat) : String :=
  if stat = 0 then "Not registered, not searching"
  else if stat = 1 then "Registered (home network)"
  else if stat = 2 then "Not registered, searching"
  else if stat = 3 then "Registration denied"
  else if stat = 4 then "Unknown"
  else if stat = 5 then "Registered (roaming)"
  else "Unknown status (" ++ toString stat ++ ")"

/-- `rssiToDbm`: `-113 + rssi * 2` dBm with the three sentinel cases. -/
def rssiToDbm (rssi : Nat) : String :=
  if rssi = 99 then "Unknown or not detectable"
  else if rssi = 0 then "-113 dBm or less"
  else if rssi = 31 then "-51 dBm or greater"
  else toString (-113 + (rssi : Int) * 2) ++ " dBm"

/-- `getSignalStrengthDescription`: qualitative RSSI buckets. -/
def getSignalStrengthDescription (rssi : Nat) : String :=
  if rssi = 99 then "Unknown"
  else if rssi ≥ 20 then "Excellent"
  else if rssi ≥ 15 then "Good"
  else if rssi ≥ 10 then "Fair"
  else if rssi ≥ 5 then "Poor"
  else "Very Poor"

/-- `getSignalQualityDescription`: BER severity ladder, with the
`|| Unknown (ber)` fallback. -/
def getSignalQualityDescription (ber : Nat) : String :=
  if ber = 99 then "Unknown"
  else if ber = 0 then "Excellent (< 0.2%)"
  else if ber = 1 then "Good (0.2% - 0.4%)"
  else if ber = 2 then "Fair (0.4% - 0.8%)"
  else if ber = 3 then "Poor (0.8% - 1.6%)"
  else if ber = 4 then "Very Poor (1.6% - 3.2%)"
  else if ber = 5 then "Bad (3.2% - 6.4%)"
  else if ber = 6 then "Very Bad (6.4% - 12.8%)"
  else if ber = 7 then "Extremely Bad (> 12.8%)"
  else "Unknown (" ++ toString ber ++ ")"

/-- `getAccessTechnologyDescription`, with the template-string fallback. -/
def getAccessTechnologyDescription (act : Nat) : String :=
  if act = 0 then "2G"
  else if act = 1 then "2G"
  else if act = 2 then "3G"
  else if act = 3 then "2G"
  else if act = 4 then "3.5G"
  else if act = 5 then "3.5G"
  else if act = 6 then "3.5G"
  else if act = 7 then "4G"
  else toString act

/-! ## Diagnostics regex parsers

Each TS parser applies one concrete regex with `String.prototype.match`.
The regexes are of the simple form `literal \s* \d+ , \d+` (and variants):
every greedy atom is followed by a character from a disjoint class, so the
backtracking engine behaves exactly like maximal munch and the matchers
below are deterministic transcriptions.  `scanLeftmost` supplies the
leftmost-match rule of `match`. -/

/-- `/\+CREG:\s*(\d+),(\d+)/i` tried at one position. -/
def cregAt (s : List Char) : Option (Nat × Nat) :=
  match matchLitCI "+creg:".data s with
  | none => none
  | some r1 =>
    let r2 := r1.dropWhile jsIsSpace
    let d1 := r2.takeWhile Char.isDigit
    if d1.isEmpty then none
    else
      match r2.drop d1.length with
      | ',' :: r3 =>
        let d2 := r3.takeWhile Char.isDigit
        if d2.isEmpty then none
        else some (digitsToNat d1, digitsToNat d2)
      | _ => none

/-- `parseCREG`: parses `+CREG: <n>,<stat>` out of a raw response. -/
def parseCREG (response : String) : Option (Nat × Nat) :=
  scanLeftmost cregAt response.data

/-- `/\+CSQ:\s*(\d+),(\d+)/i` tried at one position. -/
def csqAt (s : List Char) : Option (Nat × Nat) :=
  match matchLitCI "+csq:".data s with
  | none => none
  | some r1 =>
    let r2 := r1.dropWhile jsIsSpace
    let d1 := r2.takeWhile Char.isDigit
    if d1.isEmpty then none
    else
      match r2.drop d1.length with
      | ',' :: r3 =>
        let d2 := r3.takeWhile Char.isDigit
        if d2.isEmpty then none
        else some (digitsToNat d1, digitsToNat d2)
      | _ => none

/-- `parseCSQ`: parses `+CSQ: <rssi>,<ber>` out of a raw response. -/
def parseCSQ (response : String) : Option (Nat × Nat) :=
  scanLeftmost csqAt response.data

/-- `/\+CPIN:\s*(.+)/i` tried at one position, capture returned after the
TS-side `.trim()`.  When `\s*` reaches the end of the input the engine
backtracks: the capture then consists of trailing non-linebreak whitespace
and trims to the empty string (still a match, but a falsy capture). -/
def cpinAt (s : List Char) : Option String :=
  match matchLitCI "+cpin:".data s with
  | none => none
  | some r1 =>
    let ws := r1.takeWhile jsIsSpace
    let rest := r1.drop ws.length
    if rest.isEmpty then
      if ws.any jsIsDot then some "" else none
    else
      some (jsTrim (String.mk (rest.takeWhile jsIsDot)))

/-- `parseCPIN`: parses `+CPIN: <code>` out of a raw response. -/
def parseCPIN (response : String) : Option String :=
  scanLeftmost cpinAt response.data

/-- `/\+CMGF:\s*(\d+)/i` tried at one position. -/
def cmgfAt (s : List Char) : Option Nat :=
  match matchLitCI "+cmgf:".data s with
  | none => none
  | some r1 =>
    let r2 := r1.dropWhile jsIsSpace
    let d := r2.takeWhile Char.isDigit
    if d.isEmpty then none else some (digitsToNat d)

/-- `parseCMGF`: parses `+CMGF: <mode>` out of a raw response. -/
def parseCMGF (response : String) : Option Nat :=
  scanLeftmost cmgfAt response.data

/-- `/\+CSCA:\s*"([^"]+)"/i` tried at one position, capture `.trim()`-ed. -/
def cscaAt (s : List Char) : Option String :=
  match matchLitCI "+csca:".data s with
  | none => none
  | some r1 =>
    match r1.dropWhile jsIsSpace with
    | '"' :: r2 =>
      let body := r2.takeWhile (fun c => c ≠ '"')
      if body.isEmpty then none
      else
        match r2.drop body.length with
        | '"' :: _ => some (jsTrim (String.mk body))
        | _ => none
    | _ => none

/-- `parseCSCA`: parses `+CSCA: "<sca>"` out of a raw response. -/
def parseCSCA (response : String) : Option String :=
  scanLeftmost cscaAt response.data

/-- `/\+COPS:\s*\d+,\d+,"([^"]+)",(\d+)/i` tried at one position. -/
def copsQuotedActAt (s : List Char) : Option (String × Nat) :=
  match matchLitCI "+cops:".data s with
  | none => none
  | some r1 =>
    let r2 := r1.dropWhile jsIsSpace
    let d1 := r2.takeWhile Char.isDigit
    if d1.isEmpty then none
    else
      match r2.drop d1.length with
      | ',' :: r3 =>
        let d2 := r3.takeWhile Char.isDigit
        if d2.isEmpty then none
        else
          match r3.drop d2.length with
          | ',' :: '"' :: r4 =>
            let body := r4.takeWhile (fun c => c ≠ '"')
            if body.isEmpty then none
            else
              match r4.drop body.length with
              | '"' :: ',' :: r5 =>
                let d3 := r5.takeWhile Char.isDigit
                if d3.isEmpty then none
                else some (jsTrim (String.mk body), digitsToNat d3)
              | _ => none
          | _ => none
      | _ => none

/-- `/\+COPS:\s*\d+,\d+,"([^"]+)"/i` tried at one position. -/
def copsQuotedAt (s : List Char) : Option String :=
  match matchLitCI "+cops:".data s with
  | none => none
  | some r1 =>
    let r2 := r1.dropWhile jsIsSpace
    let d1 := r2.takeWhile Char.isDigit
    if d1.isEmpty then none
    else
      match r2.drop d1.length with
      | ',' :: r3 =>
        let d2 := r3.takeWhile Char.isDigit
        if d2.isEmpty then none
        else
          match r3.drop d2.length with
          | ',' :: '"' :: r4 =>
            let body := r4.takeWhile (fun c => c ≠ '"')
            if body.isEmpty then none
            else
              match r4.drop body.length with
              | '"' :: _ => some (jsTrim (String.mk body))
              | _ => none
          | _ => none
      | _ => none

/-- `/\+COPS:\s*\d+,\d+,(\d+)(?:,(\d+))?/i` tried at one position; second
component is the optional `act` group. -/
def copsNumericAt (s : List Char) : Option (String × Option Nat) :=
  match matchLitCI "+cops:".data s with
  | none => none
  | some r1 =>
    let r2 := r1.dropWhile jsIsSpace
    let d1 := r2.takeWhile Char.isDigit
    if d1.isEmpty then none
    else
      match r2.drop d1.length with
      | ',' :: r3 =>
        let d2 := r3.takeWhile Char.isDigit
        if d2.isEmpty then none
        else
          match r3.drop d2.length with
          | ',' :: r4 =>
            let d3 := r4.takeWhile Char.isDigit
            if d3.isEmpty then none
            else
              match r4.drop d3.length with
              | ',' :: r5 =>
                let d4 := r5.takeWhile Char.isDigit
                if d4.isEmpty then some (jsTrim (String.mk d3), none)
                else some (jsTrim (String.mk d3), some (digitsToNat d4))
              | _ => some (jsTrim (String.mk d3), none)
          | _ => none
      | _ => none

/-- `parseCOPS`: the three regex attempts of the TS function, in order. -/
def parseCOPS (response : String) : Option (String × Option Nat) :=
  match scanLeftmost copsQuotedActAt response.data with
  | some (op, act) => some (op, some act)
  | none =>
    match scanLeftmost copsQuotedAt response.data with
    | some op => some (op, none)
    | none => scanLeftmost copsNumericAt response.data

/-! ## The diagnostics record and its merge -/

/-- `GSMDiagnostics` (`gsm.types.ts`): all fields optional.  The same shape
serves as the `Partial<GSMDiagnostics>` built by the extractor, where a
`none` field means "key absent". -/
structure GSMDiagnostics where
  pinStatus : Option String := none
  messageFormat : Option Nat := none
  networkRegistration : Option (Nat × Nat) := none
  signalQuality : Option (Nat × Nat) := none
  serviceCenterAddress : Option String := none
  currentOperator : Option String := none
  accessTechnology : Option Nat := none
  accessTechnologyDescription : Option String := none
  pinStatusDescription : Option String := none
  messageFormatDescription : Option String := none
  networkRegistrationDescription : Option String := none
  networkStatusDescription : Option String := none
  signalStrengthDescription : Option String := none
  signalQualityDescription : Option String := none
  rssiValue : Option String := none
deriving DecidableEq

/-- One field of `Object.assign(target, partial)`: a key present in the
partial overwrites, an absent key leaves the target value. -/
def assignField {α : Type} (pv dv : Option α) : Option α :=
  match pv with
  | some v => some v
  | none => dv

/-- `Object.assign(this.diagnostics, diagnostics)` of
`performConnectionTest` (`GSMModule.ts`), field by field. -/
def mergeDiagnostics (d p : GSMDiagnostics) : GSMDiagnostics where
  pinStatus := assignField p.pinStatus d.pinStatus
  messageFormat := assignField p.messageFormat d.messageFormat
  networkRegistration := assignField p.networkRegistration d.networkRegistration
  signalQuality := assignField p.signalQuality d.signalQuality
  serviceCenterAddress := assignField p.serviceCenterAddress d.serviceCenterAddress
  currentOperator := assignField p.currentOperator d.currentOperator
  accessTechnology := assignField p.accessTechnology d.accessTechnology
  accessTechnologyDescription :=
    assignField p.accessTechnologyDescription d.accessTechnologyDescription
  pinStatusDescription := assignField p.pinStatusDescription d.pinStatusDescription
  messageFormatDescription :=
    assignField p.messageFormatDescription d.messageFormatDescription
  networkRegistrationDescription :=
    assignField p.networkRegistrationDescription d.networkRegistrationDescription
  networkStatusDescription :=
    assignField p.networkStatusDescription d.networkStatusDescription
  signalStrengthDescription :=
    assignField p.signalStrengthDescription d.signalStrengthDescription
  signalQualityDescription :=
    assignField p.signalQualityDescription d.signalQualityDescription
  rssiValue := assignField p.rssiValue d.rssiValue

/-- `extractDiagnosticsFromResponse` (`gsmDiagnosticsUtils.ts`): dispatch on
the probe command, parse, and populate only the parsed fields.  The
`if (pinStatus)` / `if (sca)` / `if (copsData.operator)` truthiness guards
of the TS source also exclude an empty-string capture. -/
def extractDiagnosticsFromResponse (command response : String) : GSMDiagnostics :=
  if jsIncludes command "+CPIN?" then
    match parseCPIN response with
    | some p =>
      if p = "" then {}
      else { pinStatus := some p,
             pinStatusDescription := some (getPinStatusDescription p) }
    | none => {}
  else if jsIncludes command "+CMGF?" then
    match parseCMGF response with
    | some m =>
      { messageFormat := some m,
        messageFormatDescription := some (getMessageFormatDescription m) }
    | none => {}
  else if jsIncludes command "+CREG?" then
    match parseCREG response with
    | some (n, stat) =>
      { networkRegistration := some (n, stat),
        networkRegistrationDescription :=
          some (getNetworkRegistrationModeDescription n),
        networkStatusDescription := some (getNetworkStatusDescription stat) }
    | none => {}
  else if jsIncludes command "+CSQ" then
    match parseCSQ response with
    | some (rssi, ber) =>
      { signalQuality := some (rssi, ber),
        rssiValue := some (rssiToDbm rssi),
        signalStrengthDescription := some (getSignalStrengthDescription rssi),
        signalQualityDescription := some (getSignalQualityDescription ber) }
    | none => {}
  else if jsIncludes command "+CSCA?" then
    match parseCSCA response with
    | some sca =>
      if sca = "" then {} else { serviceCenterAddress := some sca }
    | none => {}
  else if jsIncludes command "+COPS?" then
    match parseCOPS response with
    | some (op, oact) =>
      let base : GSMDiagnostics :=
        if op = "" then {} else { currentOperator := some op }
      match oact with
      | some act =>
        { base with
          accessTechnology := some act,
          accessTechnologyDescription :=
            some (getAccessTechnologyDescription act) }
      | none => base
    | none => {}
  else {}

/-! ## Response correlator (`GSMModule.handleResponse`)

`PendingCommand` (`gsm.types.ts`) carries the command text, the expected
token (`string | null`) and the completion handles; the handles are
modelled by the returned `HandleOutcome` event, the timeout handle is
irrelevant to a single `handleResponse` step. -/

/-- The in-flight expectation held in `this.pendingCommand`. -/
structure PendingCommand where
  command : String
  expectedResponse : Option String
deriving DecidableEq

/-- The mutable fields of `GSMModule` that `handleResponse` reads/writes. -/
structure GSMState where
  responseBuffer : String
  pendingCommand : Option PendingCommand
deriving DecidableEq

/-- Settlement of the in-flight command produced by one received line. -/
inductive HandleOutcome where
  | resolved (response : String)
  | rejected (error : String)
deriving DecidableEq

/-- `GSMModule.handleResponse`, one received line: trim, drop empty lines,
append to the buffer, then — if a command is in flight — check the
`ERROR`/`FAIL` tokens first, then the expected-token match (resolving with
the accumulated buffer and clearing it), then the bare-prompt case
(resolving with `">"`, buffer kept), else stay awaiting. -/
def handleResponse (st : GSMState) (data : String) : GSMState × Option HandleOutcome :=
  let trimmedData := jsTrim data
  if trimmedData = "" then (st, none)
  else
    let buf := st.responseBuffer ++ trimmedData ++ "\n"
    match st.pendingCommand with
    | none => ({ st with responseBuffer := buf }, none)
    | some pc =>
      match pc.expectedResponse with
      | none => ({ st with responseBuffer := buf }, none)
      | some expected =>
        if jsIncludes trimmedData "ERROR" || jsIncludes trimmedData "FAIL" then
          ({ responseBuffer := buf, pendingCommand := none },
            some (.rejected trimmedData))
        else if jsIncludes trimmedData expected || trimmedData = expected then
          ({ responseBuffer := "", pendingCommand := none },
            some (.resolved buf))
        else if expected = ">" && trimmedData = ">" then
          ({ responseBuffer := buf, pendingCommand := none },
            some (.resolved ">"))
        else
          ({ st with responseBuffer := buf }, none)

/-! ## Command queue (`ATCommandQueue.ts`)

`CommandObject` carries the command text, expected token, retry counter and
the caller's completion handles; the handles are modelled by an `id`
(distinct per `add` call) referenced in emitted `QEvent`s. -/

/-- A queued `CommandObject`. -/
structure Cmd where
  id : Nat
  command : String
  expectedResponse : Option String
  retries : Nat
deriving DecidableEq

/-- Settlement delivered to a caller of `add`. -/
inductive QEvent where
  | resolved (id : Nat) (response : String)
  | rejected (id : Nat) (error : String)
deriving DecidableEq

/-- The caller (`id`) a settlement event belongs to. -/
def QEvent.cmdId : QEvent → Nat
  | .resolved i _ => i
  | .rejected i _ => i

/-- Result of draining the queue. -/
structure RunResult where
  finalQueue : List Cmd
  trace : List Nat
  events : List QEvent
deriving DecidableEq

/-- Iterated `ATCommandQueue.processNext`: pop the head, execute it (the
executor's result is the next entry of `outcomes`), on success resolve the
caller, on failure either bump `retries` and reinsert at the *head*
(`queue.unshift`) or reject the caller with the last error, then loop
(`setImmediate(() => this.processNext())`).  `trace` records the dispatch
order; the run stops when the queue or the outcome supply is exhausted. -/
def processNextRun (maxRetries : Nat) :
    List (Except String String) → List Cmd → RunResult
  | _, [] => ⟨[], [], []⟩
  | [], q => ⟨q, [], []⟩
  | o :: os, c :: rest =>
    match o with
    | .ok r =>
      let res := processNextRun maxRetries os rest
      ⟨res.finalQueue, c.id :: res.trace, .resolved c.id r :: res.events⟩
    | .error e =>
      if c.retries < maxRetries then
        let res :=
          processNextRun maxRetries os ({ c with retries := c.retries + 1 } :: rest)
        ⟨res.finalQueue, c.id :: res.trace, res.events⟩
      else
        let res := processNextRun maxRetries os rest
        ⟨res.finalQueue, c.id :: res.trace, .rejected c.id e :: res.events⟩

/-- The mutable fields of `ATCommandQueue` touched by `clear`. -/
structure QueueState where
  queue : List Cmd
  processing : Bool
  currentCommand : Option Cmd
deriving DecidableEq

/-- `ATCommandQueue.clear`: reject each command still sitting in `queue`
with "Queue cleared", then reset `queue`, `processing` and
`currentCommand`.  Returns the new state and the emitted settlements. -/
def ATCommandQueue.clear (s : QueueState) : QueueState × List QEvent :=
  (⟨[], false, none⟩, s.queue.map fun c => QEvent.rejected c.id "Queue cleared")

/-! ## SMS fan-out (`GSMModule.sendToAll`)

`sendSMS` is a fallible multi-step operation; its per-recipient behaviour
is abstracted as an oracle returning the settlement (`Except`: `error` is
the thrown message) together with the AT commands it dispatched to the
queue before settling. -/

/-- `SMSResult` (`gsm.types.ts`). -/
structure SMSResult where
  phoneNumber : String
  success : Bool
  error : Option String
deriving DecidableEq

/-- The `for (const phoneNumber of phoneNumbers)` loop of `sendToAll`:
`try` `sendSMS` for each recipient in order, push a success or failure
result — a throw is caught per recipient and never aborts the loop. -/
def sendToAllLoop (sendSMS : String → Except String Unit × List String) :
    List String → List SMSResult × List String → List SMSResult × List String
  | [], acc => acc
  | p :: ps, acc =>
    match sendSMS p with
    | (.ok _, ds) => sendToAllLoop sendSMS ps (acc.1 ++ [⟨p, true, none⟩], acc.2 ++ ds)
    | (.error e, ds) =>
      sendToAllLoop sendSMS ps (acc.1 ++ [⟨p, false, some e⟩], acc.2 ++ ds)

/-- `GSMModule.sendToAll`: early return on an empty recipient list,
otherwise run the per-recipient loop starting from empty results.  The
second component collects every AT command dispatched on the queue. -/
def sendToAll (phoneNumbers : List String)
    (sendSMS : String → Except String Unit × List String) :
    List SMSResult × List String :=
  if phoneNumbers.length = 0 then ([], [])
  else sendToAllLoop sendSMS phoneNumbers ([], [])

/-! ## Diagnostics snapshot (`GSMModule.getDiagnostics`)

`getDiagnostics` returns `{ ...this.diagnostics }`.  A JS spread copies the
*top-level* fields of the object into a fresh object: primitive fields
(strings, numbers) are copied by value, object-valued fields
(`networkRegistration`, `signalQuality`) are copied as references.  To
reason about reference sharing we model the JS heap explicitly: top-level
diagnostics objects and the two kinds of nested sub-records live in
address-indexed stores, and an object field of type "sub-record" holds an
address. -/

/-- The nested `networkRegistration` object `{ n?, stat? }`. -/
structure RegObj where
  n : Option Nat
  stat : Option Nat
deriving DecidableEq

/-- The nested `signalQuality` object `{ rssi?, ber? }`. -/
structure SigObj where
  rssi : Option Nat
  ber : Option Nat
deriving DecidableEq

/-- A top-level `GSMDiagnostics` object as laid out on the heap: primitive
fields by value, nested sub-records by address. -/
structure DiagTop where
  pinStatus : Option String := none
  messageFormat : Option Nat := none
  networkRegistration : Option Nat := none
  signalQuality : Option Nat := none
  serviceCenterAddress : Option String := none
  currentOperator : Option String := none
  accessTechnology : Option Nat := none
  accessTechnologyDescription : Option String := none
  pinStatusDescription : Option String := none
  messageFormatDescription : Option String := none
  networkRegistrationDescription : Option String := none
  networkStatusDescription : Option String := none
  signalStrengthDescription : Option String := none
  signalQualityDescription : Option String := none
  rssiValue : Option String := none
deriving DecidableEq

/-- The JS heap: address-indexed stores of top-level diagnostics objects
and nested sub-records (an address is an index; allocation appends). -/
structure DiagHeap where
  tops : List DiagTop
  regs : List RegObj
  sigs : List SigObj
deriving DecidableEq

/-- `GSMModule.getDiagnostics`, i.e. `return { ...this.diagnostics }`:
allocate a fresh top-level object whose fields are copied one by one from
the engine's object at `engine`; nested sub-records are *not* cloned, only
their addresses are copied.  Returns the heap after allocation and the
address of the snapshot. -/
def getDiagnostics (h : DiagHeap) (engine : Nat) : DiagHeap × Nat :=
  match h.tops.get? engine with
  | none => (h, engine)
  | some t =>
    ({ h with
        tops := h.tops ++
          [{ pinStatus := t.pinStatus
             messageFormat := t.messageFormat
             networkRegistration := t.networkRegistration
             signalQuality := t.signalQuality
             serviceCenterAddress := t.serviceCenterAddress
             currentOperator := t.currentOperator
             accessTechnology := t.accessTechnology
             accessTechnologyDescription := t.accessTechnologyDescription
             pinStatusDescription := t.pinStatusDescription
             messageFormatDescription := t.messageFormatDescription
             networkRegistrationDescription := t.networkRegistrationDescription
             networkStatusDescription := t.networkStatusDescription
             signalStrengthDescription := t.signalStrengthDescription
             signalQualityDescription := t.signalQualityDescription
             rssiValue := t.rssiValue }] },
      h.tops.length)

/-- JS `topObj.pinStatus = v` on the top-level object at `addr`. -/
def setTopPinStatus (h : DiagHeap) (addr : Nat) (v : Option String) : DiagHeap :=
  match h.tops.get? addr with
  | none => h
  | some t => { h with tops := h.tops.set addr { t with pinStatus := v } }

/-- JS `regObj.stat = v` on the nested registration object at `addr`. -/
def setRegStat (h : DiagHeap) (addr : Nat) (v : Option Nat) : DiagHeap :=
  match h.regs.get? addr with
  | none => h
  | some r => { h with regs := h.regs.set addr { r with stat := v } }

/-- What the engine observes as its `networkRegistration` sub-record:
dereference the top-level object at `topAddr`, then its nested address. -/
def viewReg (h : DiagHeap) (topAddr : Nat) : Option RegObj :=
  match h.tops.get? topAddr with
  | none => none
  | some t =>
    match t.networkRegistration with
    | none => none
    | some a => h.regs.get? a

/-- "The diagnostics parser found no match": the parser consulted by
`extractDiagnosticsFromResponse` for this probe command returned
`undefined`.  The dispatch mirrors the `if/else if` chain of the TS
function. -/
def relevantParserNone (command response : String) : Prop :=
  if jsIncludes command "+CPIN?" then parseCPIN response = none
  else if jsIncludes command "+CMGF?" then parseCMGF response = none
  else if jsIncludes command "+CREG?" then parseCREG response = none
  else if jsIncludes command "+CSQ" then parseCSQ response = none
  else if jsIncludes command "+CSCA?" then parseCSCA response = none
  else if jsIncludes command "+COPS?" then parseCOPS response = none
  else True

instance (command response : String) :
    Decidable (relevantParserNone command response) := by
  unfold relevantParserNone
  infer_instance

/-- A tiny concrete heap for exercising `getDiagnostics`: the engine's
diagnostics object lives at top address 0 and holds the nested
registration record at address 0 (`{ n: 0, stat: 1 }`). -/
def c9Heap : DiagHeap :=
  { tops := [{ networkRegistration := some 0 }],
    regs := [⟨some 0, some 1⟩],
    sigs := [] }

/-! ## Claims -/

/-- C1: while a command is in flight (the engine only ever stores an
in-flight expectation with a non-null expected token, see
`executeATCommand`), a received line whose trimmed content contains the
literal token `ERROR` or `FAIL` rejects the in-flight command immediately,
with that line as the error detail, and clears the expectation.  The
expected token `expected` is universally quantified and unconstrained, so
this rejection takes precedence over expected-token matching: a line
containing both `ERROR` and the expected token rejects, never resolves. -/
theorem handleResponse_error_token_rejects
    (st : GSMState) (pc : PendingCommand) (expected : String) (data : String)
    (hpc : st.pendingCommand = some pc)
    (hexp : pc.expectedResponse = some expected)
    (herr : jsIncludes (jsTrim data) "ERROR" = true ∨
            jsIncludes (jsTrim data) "FAIL" = true) :
    handleResponse st data =
      ({ responseBuffer := st.responseBuffer ++ jsTrim data ++ "\n",
         pendingCommand := none },
        some (HandleOutcome.rejected (jsTrim data))) := by
  have hne : ¬(jsTrim data = "") := by
    intro h
    rw [h] at herr
    rcases herr with h' | h' <;> exact absurd h' (by decide)
  have hor : (jsIncludes (jsTrim data) "ERROR" ||
              jsIncludes (jsTrim data) "FAIL") = true := by
    rcases herr with h' | h' <;> simp [h']
  simp only [handleResponse, hpc, hexp, hor, if_neg hne, if_true, Bool.or_eq_true]

/-- C1 witness: a concrete line containing both the expected token
`+CPIN:` and `ERROR` is rejected with the line as detail. -/
theorem handleResponse_error_token_rejects_witness :
    (jsIncludes (jsTrim "+CPIN: ERROR") "ERROR" = true ∨
     jsIncludes (jsTrim "+CPIN: ERROR") "FAIL" = true) ∧
    handleResponse ⟨"", some ⟨"AT+CPIN?", some "+CPIN:"⟩⟩ "+CPIN: ERROR" =
      ({ responseBuffer := "" ++ jsTrim "+CPIN: ERROR" ++ "\n",
         pendingCommand := none },
        some (HandleOutcome.rejected (jsTrim "+CPIN: ERROR"))) :=
  ⟨Or.inl (by decide),
    handleResponse_error_token_rejects ⟨"", some ⟨"AT+CPIN?", some "+CPIN:"⟩⟩
      ⟨"AT+CPIN?", some "+CPIN:"⟩ "+CPIN:" "+CPIN: ERROR" rfl rfl
      (Or.inl (by decide))⟩

/-- C2 counterexample: a state with command `id 0` in flight
(`currentCommand`) and command `id 1` queued.  `clear` settles only the
queued command — the event list mentions `id 1` alone, so the in-flight
command is *not* rejected with a "queue cleared" error, refuting the
claim; the queue is emptied and the in-flight slot merely dropped. -/
theorem clear_does_not_reject_inflight :
    (ATCommandQueue.clear
        ⟨[⟨1, "AT+CSQ", some "+CSQ:", 0⟩], true,
          some ⟨0, "AT+CPIN?", some "+CPIN:", 0⟩⟩).2.map QEvent.cmdId = [1] ∧
    (ATCommandQueue.clear
        ⟨[⟨1, "AT+CSQ", some "+CSQ:", 0⟩], true,
          some ⟨0, "AT+CPIN?", some "+CPIN:", 0⟩⟩).1.queue = [] := by
  decide

/-- C2 amended: `clear()` rejects every *queued* command with the
"Queue cleared" error and leaves the queue empty (and the processing flag
and in-flight slot reset); the in-flight command itself receives no
settlement from `clear`. -/
theorem clear_rejects_all_queued (s : QueueState) :
    (ATCommandQueue.clear s).1.queue = [] ∧
    (ATCommandQueue.clear s).1.processing = false ∧
    (ATCommandQueue.clear s).1.currentCommand = none ∧
    (ATCommandQueue.clear s).2 =
      s.queue.map (fun c => QEvent.rejected c.id "Queue cleared") :=
  ⟨rfl, rfl, rfl, rfl⟩

/-- C3: commands `A` (id `ida`) then `B` (id `idb`) are enqueued; `A`'s
first dispatch fails and `A` has retries remaining (`1 ≤ m`).  `A` is
reinserted at the head, so the dispatch order is `A, A(retry), B` — the
retry precedes `B` — and both callers are then resolved in FIFO order. -/
theorem retry_requeued_at_head
    (m ida idb : Nat) (ca cb : String) (eta etb : Option String)
    (ea r1 r2 : String) (hm : 1 ≤ m) :
    processNextRun m [Except.error ea, Except.ok r1, Except.ok r2]
        [⟨ida, ca, eta, 0⟩, ⟨idb, cb, etb, 0⟩] =
      ⟨[], [ida, ida, idb],
        [QEvent.resolved ida r1, QEvent.resolved idb r2]⟩ := by
  simp [processNextRun, hm]
  omega

/-- C3 witness at `maxRetries = 3` and concrete commands. -/
theorem retry_requeued_at_head_witness :
    1 ≤ 3 ∧
    processNextRun 3
        [Except.error "Command timeout: AT+CSQ", Except.ok "+CSQ: 20,0\nOK\n",
          Except.ok "+CREG: 0,1\nOK\n"]
        [⟨0, "AT+CSQ", some "+CSQ:", 0⟩, ⟨1, "AT+CREG?", some "+CREG:", 0⟩] =
      ⟨[], [0, 0, 1],
        [QEvent.resolved 0 "+CSQ: 20,0\nOK\n",
          QEvent.resolved 1 "+CREG: 0,1\nOK\n"]⟩ :=
  ⟨by decide,
    retry_requeued_at_head 3 0 1 "AT+CSQ" "AT+CREG?" (some "+CSQ:")
      (some "+CREG:") "Command timeout: AT+CSQ" "+CSQ: 20,0\nOK\n"
      "+CREG: 0,1\nOK\n" (by decide)⟩

/-- C4 counterexample: with `maxRetries = 1`, after exactly `maxRetries`
(= 1) consecutive failures the caller has received *no* settlement — the
event list is empty and the command sits requeued with `retries = 1`.  The
permanent failure only arrives on the `maxRetries + 1`-st failure, so
"after maxRetries consecutive failures the caller receives a permanent
failure" is false as stated. -/
theorem maxRetries_failures_not_yet_rejected :
    (processNextRun 1 [Except.error "Command timeout: AT"]
        [⟨0, "AT", some "OK", 0⟩]).events = [] ∧
    (processNextRun 1 [Except.error "Command timeout: AT"]
        [⟨0, "AT", some "OK", 0⟩]).finalQueue = [⟨0, "AT", some "OK", 1⟩] := by
  decide

/-- Draining a block of consecutive failures: while retries remain, each
failure bumps the counter and reinserts the command at the head, emitting
no settlement.  After `es.length` failures starting from `retries = j`
with `j + es.length = maxRetries`, the run continues with the counter
exhausted. -/
theorem processNextRun_error_block (m : Nat) (es : List String) :
    ∀ (j : Nat) (c : Cmd) (rest : List Cmd) (os : List (Except String String)),
      j + es.length = m → c.retries = j →
      processNextRun m (es.map Except.error ++ os) (c :: rest) =
        ⟨(processNextRun m os ({ c with retries := m } :: rest)).finalQueue,
          List.replicate es.length c.id ++
            (processNextRun m os ({ c with retries := m } :: rest)).trace,
          (processNextRun m os ({ c with retries := m } :: rest)).events⟩ := by
  induction es with
  | nil =>
    intro j c rest os hlen hret
    simp only [List.length_nil, Nat.add_zero] at hlen
    have hc : { c with retries := m } = c := by
      cases c
      simp_all
    simp [hc]
  | cons e es ih =>
    intro j c rest os hlen hret
    obtain ⟨cid, ccmd, cexp, cret⟩ := c
    simp only [List.length_cons] at hlen
    simp only at hret
    subst hret
    have hlt : cret < m := by omega
    show processNextRun m (Except.error e :: (es.map Except.error ++ os))
        (⟨cid, ccmd, cexp, cret⟩ :: rest) = _
    rw [show processNextRun m (Except.error e :: (es.map Except.error ++ os))
          (⟨cid, ccmd, cexp, cret⟩ :: rest) =
        ⟨(processNextRun m (es.map Except.error ++ os)
            (⟨cid, ccmd, cexp, cret + 1⟩ :: rest)).finalQueue,
          cid :: (processNextRun m (es.map Except.error ++ os)
            (⟨cid, ccmd, cexp, cret + 1⟩ :: rest)).trace,
          (processNextRun m (es.map Except.error ++ os)
            (⟨cid, ccmd, cexp, cret + 1⟩ :: rest)).events⟩
      from by simp [processNextRun, hlt]]
    rw [ih (cret + 1) ⟨cid, ccmd, cexp, cret + 1⟩ rest os (by omega) rfl]
    simp [List.replicate_succ]

/-- C4 amended: a command permanently fails only after `maxRetries + 1`
consecutive failures — the initial attempt plus `maxRetries` retries.  The
caller then receives a rejection carrying the *last* error, and the queue
proceeds to the next queued command (`idb`), which is dispatched and
resolved. -/
theorem retries_exhausted_rejects_with_last_error
    (m ida idb : Nat) (ca cb : String) (eta etb : Option String)
    (es : List String) (elast r : String) (hlen : es.length = m) :
    processNextRun m (es.map Except.error ++ [Except.error elast, Except.ok r])
        [⟨ida, ca, eta, 0⟩, ⟨idb, cb, etb, 0⟩] =
      ⟨[], List.replicate (m + 1) ida ++ [idb],
        [QEvent.rejected ida elast, QEvent.resolved idb r]⟩ := by
  rw [processNextRun_error_block m es 0 ⟨ida, ca, eta, 0⟩
      [⟨idb, cb, etb, 0⟩] [Except.error elast, Except.ok r] (by omega) rfl]
  simp [processNextRun, hlen, List.replicate_succ', List.append_assoc]

/-- C4 amended witness: `maxRetries = 2`, three consecutive failures; the
caller is rejected with the third (last) error and the next command runs. -/
theorem retries_exhausted_witness :
    (["timeout 1", "timeout 2"] : List String).length = 2 ∧
    processNextRun 2
        (["timeout 1", "timeout 2"].map Except.error ++
          [Except.error "timeout 3", Except.ok "OK\n"])
        [⟨0, "AT", some "OK", 0⟩, ⟨1, "ATE0", some "OK", 0⟩] =
      ⟨[], List.replicate 3 0 ++ [1],
        [QEvent.rejected 0 "timeout 3", QEvent.resolved 1 "OK\n"]⟩ :=
  ⟨by decide,
    retries_exhausted_rejects_with_last_error 2 0 1 "AT" "ATE0" (some "OK")
      (some "OK") ["timeout 1", "timeout 2"] "timeout 3" "OK\n" (by decide)⟩

/-- C5 counterexample: the claim quotes the BER description for `ber = 0`
as `"Excellent (<0.2%)"`, but the code's string is `"Excellent (< 0.2%)"`
(a space after `<`), so the claim is false as literally stated. -/
theorem ber_description_string_differs :
    getSignalQualityDescription 0 ≠ "Excellent (<0.2%)" ∧
    getSignalQualityDescription 0 = "Excellent (< 0.2%)" := by
  decide

/-- C5 amended: `+CSQ` parsing and rendering with the code's exact BER
string `"Excellent (< 0.2%)"`: `+CSQ: 20,0` gives strength "Excellent"
and that BER description; rssi 99 and ber 99 give "Unknown"; rssi 0 gives
the dBm string `"-113 dBm or less"` (the code's rendering of "≤ −113
dBm"); for `0 < rssi < 31` the dBm value is `−113 + 2·rssi`; and for
every non-sentinel rssi the qualitative buckets are ≥20 Excellent,
≥15 Good, ≥10 Fair, ≥5 Poor, else Very Poor. -/
theorem csq_parsing_and_buckets :
    parseCSQ "+CSQ: 20,0" = some (20, 0) ∧
    getSignalStrengthDescription 20 = "Excellent" ∧
    getSignalQualityDescription 0 = "Excellent (< 0.2%)" ∧
    parseCSQ "+CSQ: 99,99" = some (99, 99) ∧
    getSignalStrengthDescription 99 = "Unknown" ∧
    getSignalQualityDescription 99 = "Unknown" ∧
    parseCSQ "+CSQ: 0,0" = some (0, 0) ∧
    rssiToDbm 0 = "-113 dBm or less" ∧
    (∀ rssi : Nat, 0 < rssi → rssi < 31 →
      rssiToDbm rssi = toString (-113 + (rssi : Int) * 2) ++ " dBm") ∧
    (∀ rssi : Nat, rssi ≠ 99 →
      getSignalStrengthDescription rssi =
        if rssi ≥ 20 then "Excellent"
        else if rssi ≥ 15 then "Good"
        else if rssi ≥ 10 then "Fair"
        else if rssi ≥ 5 then "Poor"
        else "Very Poor") := by
  refine ⟨by decide, by decide, by decide, by decide, by decide, by decide,
    by decide, by decide, ?_, ?_⟩
  · intro rssi h0 h31
    unfold rssiToDbm
    rw [if_neg (by omega), if_neg (by omega), if_neg (by omega)]
  · intro rssi h99
    unfold getSignalStrengthDescription
    rw [if_neg h99]

/-- C5 witness: the quantified conjuncts applied at `rssi = 17`. -/
theorem csq_parsing_and_buckets_witness :
    (0 < 17 ∧ 17 < 31 ∧ 17 ≠ 99) ∧
    rssiToDbm 17 = toString (-113 + (17 : Int) * 2) ++ " dBm" ∧
    getSignalStrengthDescription 17 =
      (if 17 ≥ 20 then "Excellent"
       else if 17 ≥ 15 then "Good"
       else if 17 ≥ 10 then "Fair"
       else if 17 ≥ 5 then "Poor"
       else "Very Poor") :=
  ⟨⟨by decide, by decide, by decide⟩,
    csq_parsing_and_buckets.2.2.2.2.2.2.2.2.1 17 (by decide) (by decide),
    csq_parsing_and_buckets.2.2.2.2.2.2.2.2.2 17 (by decide)⟩

/-- C6 counterexample: `stat = 6` lies outside 0–5, yet `+CREG: 0,6` is
*accepted* by the parser and the status description is *defaulted* to
`"Unknown status (6)"` — there is no rejection path, so "values outside
0–5 are rejected as invalid rather than defaulted" is false. -/
theorem creg_out_of_range_defaulted :
    (extractDiagnosticsFromResponse "AT+CREG?" "+CREG: 0,6").networkRegistration
      = some (0, 6) ∧
    (extractDiagnosticsFromResponse "AT+CREG?" "+CREG: 0,6").networkStatusDescription
      = some "Unknown status (6)" := by
  decide

/-- C6 amended: `+CREG: <n>,<stat>` parsing maps stat 0–5 to the six
registration descriptions (`+CREG: 0,1` gives "Registered (home network)"
with mode "Notifications disabled"; `+CREG: 1,5` gives "Registered
(roaming)"), while a stat outside 0–5 is *not* rejected: it is accepted
and its description defaults to `"Unknown status (<stat>)"`. -/
theorem creg_parsing_mapping :
    parseCREG "+CREG: 0,1" = some (0, 1) ∧
    getNetworkRegistrationModeDescription 0 = "Notifications disabled" ∧
    getNetworkStatusDescription 1 = "Registered (home network)" ∧
    parseCREG "+CREG: 1,5" = some (1, 5) ∧
    getNetworkStatusDescription 5 = "Registered (roaming)" ∧
    getNetworkStatusDescription 0 = "Not registered, not searching" ∧
    getNetworkStatusDescription 2 = "Not registered, searching" ∧
    getNetworkStatusDescription 3 = "Registration denied" ∧
    getNetworkStatusDescription 4 = "Unknown" ∧
    (∀ stat : Nat, 5 < stat →
      getNetworkStatusDescription stat =
        "Unknown status (" ++ toString stat ++ ")") := by
  refine ⟨by decide, by decide, by decide, by decide, by decide, by decide,
    by decide, by decide, by decide, ?_⟩
  intro stat h
  unfold getNetworkStatusDescription
  rw [if_neg (by omega), if_neg (by omega), if_neg (by omega),
    if_neg (by omega), if_neg (by omega), if_neg (by omega)]

/-- C6 witness: the quantified conjunct applied at `stat = 7`. -/
theorem creg_parsing_mapping_witness :
    5 < 7 ∧
    getNetworkStatusDescription 7 = "Unknown status (" ++ toString 7 ++ ")" :=
  ⟨by decide, creg_parsing_mapping.2.2.2.2.2.2.2.2.2 7 (by decide)⟩

/-- The SMS loop appends exactly one result per recipient, in order. -/
theorem sendToAllLoop_phoneNumbers
    (f : String → Except String Unit × List String) :
    ∀ (ns : List String) (acc : List SMSResult × List String),
      ((sendToAllLoop f ns acc).1).map SMSResult.phoneNumber =
        (acc.1).map SMSResult.phoneNumber ++ ns := by
  intro ns
  induction ns with
  | nil => intro acc; simp [sendToAllLoop]
  | cons p ps ih =>
    intro acc
    rcases hfp : f p with ⟨e | u, ds⟩ <;>
      simp [sendToAllLoop, hfp, ih]

/-- C7: `sendToAll` returns one result per configured recipient, in the
configured order (first conjunct: the result list's phone numbers are
exactly the recipient list), and one recipient's failure never aborts the
rest: with recipients `[a, b]` where `a`'s send throws `e` and `b`'s
succeeds, the result is `[{a, success:false, error:e}, {b, success:true}]`
(second conjunct). -/
theorem sendToAll_per_recipient_independent :
    (∀ (ns : List String) (f : String → Except String Unit × List String),
      ((sendToAll ns f).1).map SMSResult.phoneNumber = ns) ∧
    (∀ (a b e : String) (f : String → Except String Unit × List String)
        (da db : List String),
      f a = (Except.error e, da) → f b = (Except.ok (), db) →
      (sendToAll [a, b] f).1 = [⟨a, false, some e⟩, ⟨b, true, none⟩]) := by
  constructor
  · intro ns f
    unfold sendToAll
    by_cases h : ns.length = 0
    · rw [if_pos h]
      simp [List.length_eq_zero.mp h]
    · rw [if_neg h, sendToAllLoop_phoneNumbers]
      simp
  · intro a b e f da db hfa hfb
    unfold sendToAll
    rw [if_neg (by simp)]
    simp [sendToAllLoop, hfa, hfb]

/-- C7 witness: a concrete oracle where recipient "111" fails with "boom"
and recipient "222" succeeds. -/
theorem sendToAll_per_recipient_independent_witness :
    (fun p => if p = "111"
        then ((Except.error "boom" : Except String Unit), ["cmgs 111"])
        else (Except.ok (), ["cmgs 222"])) "111"
      = (Except.error "boom", ["cmgs 111"]) ∧
    (sendToAll ["111", "222"]
        (fun p => if p = "111"
          then ((Except.error "boom" : Except String Unit), ["cmgs 111"])
          else (Except.ok (), ["cmgs 222"]))).1 =
      [⟨"111", false, some "boom"⟩, ⟨"222", true, none⟩] :=
  ⟨rfl,
    sendToAll_per_recipient_independent.2 "111" "222" "boom"
      (fun p => if p = "111"
        then ((Except.error "boom" : Except String Unit), ["cmgs 111"])
        else (Except.ok (), ["cmgs 222"]))
      ["cmgs 111"] ["cmgs 222"] rfl rfl⟩

/-- C8: whenever the diagnostics parser consulted for a probe command
finds no match in the raw response, the extractor returns the all-absent
partial record, and merging that partial into any existing
DiagnosticsRecord (the `Object.assign` of `performConnectionTest`) leaves
every field untouched — a malformed response never unsets or overwrites a
previously parsed field. -/
theorem extract_no_match_keeps_diagnostics
    (command response : String) (d : GSMDiagnostics)
    (h : relevantParserNone command response) :
    extractDiagnosticsFromResponse command response = {} ∧
    mergeDiagnostics d (extractDiagnosticsFromResponse command response) = d := by
  have hempty : extractDiagnosticsFromResponse command response = {} := by
    unfold relevantParserNone at h
    unfold extractDiagnosticsFromResponse
    split_ifs at h ⊢ <;> simp_all
  refine ⟨hempty, ?_⟩
  rw [hempty]
  rfl

/-- C8 witness: probe `AT+CPIN?` with the unparseable response `"OK"` and
a record with an already-populated PIN field. -/
theorem extract_no_match_keeps_diagnostics_witness :
    relevantParserNone "AT+CPIN?" "OK" ∧
    mergeDiagnostics { pinStatus := some "READY" }
        (extractDiagnosticsFromResponse "AT+CPIN?" "OK") =
      { pinStatus := some "READY" } :=
  ⟨by decide,
    (extract_no_match_keeps_diagnostics "AT+CPIN?" "OK"
      { pinStatus := some "READY" } (by decide)).2⟩

/-- C9 counterexample: the snapshot returned by `getDiagnostics` shares
its nested registration record with the engine (both hold heap address 0,
first conjunct).  Mutating `stat` through the snapshot's nested record
changes what the engine itself observes — from `{n:0, stat:1}` before to
`{n:0, stat:5}` after — so mutating a nested part of the returned record
does *not* leave the engine's internal diagnostics state unchanged. -/
theorem getDiagnostics_nested_mutation_visible :
    ((getDiagnostics c9Heap 0).1.tops.get? (getDiagnostics c9Heap 0).2).bind
        DiagTop.networkRegistration = some 0 ∧
    viewReg c9Heap 0 = some ⟨some 0, some 1⟩ ∧
    viewReg (setRegStat (getDiagnostics c9Heap 0).1 0 (some 5)) 0 =
      some ⟨some 0, some 5⟩ := by
  decide

/-- C9 amended: `getDiagnostics` returns a *shallow* copy: a fresh
top-level object (its address differs from the engine's, and writing a
top-level field through the snapshot leaves the engine's object intact),
but the nested registration and signal sub-records are shared by
reference, so mutating those through the snapshot mutates the engine's
state. -/
theorem getDiagnostics_returns_shallow_copy
    (h : DiagHeap) (e : Nat) (t : DiagTop) (v : Option String)
    (he : h.tops.get? e = some t) :
    (getDiagnostics h e).2 ≠ e ∧
    (getDiagnostics h e).1.tops.get? e = some t ∧
    ((getDiagnostics h e).1.tops.get? (getDiagnostics h e).2).map
        DiagTop.networkRegistration = some t.networkRegistration ∧
    ((getDiagnostics h e).1.tops.get? (getDiagnostics h e).2).map
        DiagTop.signalQuality = some t.signalQuality ∧
    (setTopPinStatus (getDiagnostics h e).1 (getDiagnostics h e).2 v).tops.get? e
      = some t := by
  have hlt : e < h.tops.length := (List.get?_eq_some.mp he).1
  simp only [getDiagnostics, he]
  refine ⟨by omega, ?_, ?_, ?_, ?_⟩
  · rw [List.get?_append hlt]
    exact he
  · rw [List.get?_concat_length]
    rfl
  · rw [List.get?_concat_length]
    rfl
  · simp only [setTopPinStatus, List.get?_concat_length]
    rw [List.get?_set_ne _ _ (by omega), List.get?_append hlt]
    exact he

/-- C9 amended witness: on the concrete heap, writing `pinStatus` through
the snapshot leaves the engine's top-level object unchanged. -/
theorem getDiagnostics_returns_shallow_copy_witness :
    c9Heap.tops.get? 0 = some { networkRegistration := some 0 } ∧
    (setTopPinStatus (getDiagnostics c9Heap 0).1 (getDiagnostics c9Heap 0).2
        (some "READY")).tops.get? 0 = some { networkRegistration := some 0 } :=
  ⟨by decide,
    (getDiagnostics_returns_shallow_copy c9Heap 0
      { networkRegistration := some 0 } (some "READY") (by decide)).2.2.2.2⟩

/-- C10: with an empty configured recipient list, `sendToAll` returns the
empty result list immediately, and the dispatch log (second component) is
empty — no AT command is dispatched and the command queue is never
touched. -/
theorem sendToAll_empty_list
    (f : String → Except String Unit × List String) :
    sendToAll [] f = ([], []) :=
  rfl
